import Mathlib

/-!
Shallow embedding of the metrics pipeline of `youtube_dashboard.py`
(a Streamlit analytics dashboard).  Numeric cell values are modelled as
rationals (the code works on pandas int64/float64 columns holding exact
small integers and their quotients), timestamps as integers (seconds since
the epoch), calendar dates as integers (days since the epoch).
-/

namespace YTDash

/-- A raw cell of the `video_stats` table before coercion: either a numeric
value (`pd.to_numeric` also parses numeric strings, which are subsumed by
`num`), a non-numeric string (which `pd.to_numeric(errors="coerce")` turns
into NaN), or a null/NaN. -/
inductive Cell where
  | num (q : ℚ)
  | text (s : String)
  | null
deriving DecidableEq

/-- A raw row of the `video_stats` table as loaded at line 27.  Each numeric
field is `Option Cell`: `none` models the column being absent from the
table's schema for this row (line 83's `col not in filtered_videos.columns`
check).  `date` is the value of the chosen date column (`published_at` if
present, else `fetched_at`, line 48); `none` models a NaT/null timestamp. -/
structure RawVideo where
  title : String
  views : Option Cell
  likes : Option Cell
  dislikes : Option Cell
  comments : Option Cell
  date : Option ℤ
deriving DecidableEq

/-- A video row after numeric coercion (lines 82-85): the four numeric
fields are defined rationals. -/
structure VideoRow where
  title : String
  views : ℚ
  likes : ℚ
  dislikes : ℚ
  comments : ℚ
  date : Option ℤ
deriving DecidableEq

/-- A video row after the `engagement_rate` column has been added
(lines 88-91). -/
structure DerivedRow where
  title : String
  views : ℚ
  likes : ℚ
  dislikes : ℚ
  comments : ℚ
  date : Option ℤ
  engagement_rate : ℚ
deriving DecidableEq

/-- One row of the `channel_stats` table (latest snapshot, line 21-23). -/
structure ChannelSnapshot where
  subscribers : ℚ
  total_views : ℚ
  total_videos : ℚ
deriving DecidableEq

/-- Line 85: `pd.to_numeric(col, errors="coerce").fillna(0)`, together with
line 83-84's substitution of a constant 0 column when the column is missing:
a numeric cell keeps its value, a non-numeric cell becomes NaN and is then
filled with 0, a null is filled with 0, a missing column is 0 everywhere. -/
def cellToNum : Option Cell → ℚ
  | some (Cell.num q) => q
  | some (Cell.text _) => 0
  | some Cell.null => 0
  | none => 0

/-- Lines 82-85 applied to one row. -/
def coerceRow (r : RawVideo) : VideoRow :=
  { title := r.title
    views := cellToNum r.views
    likes := cellToNum r.likes
    dislikes := cellToNum r.dislikes
    comments := cellToNum r.comments
    date := r.date }

/-- Lines 82-85 applied to the whole table. -/
def coerceTable (l : List RawVideo) : List VideoRow :=
  l.map coerceRow

/-- `pd.to_datetime(d)` on a `datetime.date`: midnight of day `d`, in
seconds. -/
def dayStart (d : ℤ) : ℤ := 86400 * d

/-- The row-level predicate of lines 77-79: the timestamp comparison
`start_ts <= t <= end_ts`.  A NaT timestamp (`none`) compares `False`
against any bound in pandas, so such a row never survives the filter. -/
def inDateWindow (startTs endTs : ℤ) (r : RawVideo) : Bool :=
  match r.date with
  | some t => decide (startTs ≤ t) && decide (t ≤ endTs)
  | none => false

/-- Lines 74-79: if both bounds are present, keep the rows whose timestamp
lies in `[start 00:00:00, end 23:59:59]` where the end bound is
`pd.to_datetime(end) + 1 day - 1 second` (line 76); otherwise the table is
left unfiltered (line 74's `if start_date and end_date`). -/
def filterByDate (s e : Option ℤ) (l : List RawVideo) : List RawVideo :=
  match s, e with
  | some sd, some ed => l.filter (inDateWindow (dayStart sd) (dayStart (ed + 1) - 1))
  | _, _ => l

/-- Line 90: `.replace({0: pd.NA})` on the views column. -/
def replaceZeroNA (q : ℚ) : Option ℚ :=
  if q = 0 then none else some q

/-- Pandas nullable division: a number divided by NA is NA. -/
def naDiv (x : ℚ) (d : Option ℚ) : Option ℚ :=
  d.map (fun d0 => x / d0)

/-- Line 91: `.fillna(0)`. -/
def fillna0 (o : Option ℚ) : ℚ :=
  o.getD 0

/-- Lines 88-91: `(likes + comments) / views.replace({0: pd.NA})`, then
`.fillna(0)`. -/
def engagementRate (likes comments views : ℚ) : ℚ :=
  fillna0 (naDiv (likes + comments) (replaceZeroNA views))

/-- Lines 88-91 applied to one row: the row gains an `engagement_rate`
column. -/
def addEngagement (v : VideoRow) : DerivedRow :=
  { title := v.title
    views := v.views
    likes := v.likes
    dislikes := v.dislikes
    comments := v.comments
    date := v.date
    engagement_rate := engagementRate v.likes v.comments v.views }

/-- Lines 88-91 applied to the whole table. -/
def computeEngagement (l : List VideoRow) : List DerivedRow :=
  l.map addEngagement

/-- Pandas `Series.nlargest`/`DataFrame.nlargest` with the default
`keep="first"` performs a stable descending selection: it stable-sorts the
candidate indices with `argsort(kind="mergesort")` on the negated values and
keeps the first `n`, so among equal values earlier rows come first.  A
stable descending sort is insertion sort with the reflexive relation
`f b ≤ f a`. -/
def pdStableSortDesc {α : Type} (f : α → ℚ) (l : List α) : List α :=
  List.insertionSort (fun a b => f b ≤ f a) l

/-- Line 94 / 223 / 234: `df.nlargest(n, field)`. -/
def pdNlargest {α : Type} (f : α → ℚ) (n : ℕ) (l : List α) : List α :=
  (pdStableSortDesc f l).take n

/-- Pandas `sort_values(field, ascending=False)`: `nargsort` reverses the
values and their positions *before* the ascending `argsort` and reverses
the resulting indexer *after*, so the two reversals cancel on ties and the
output is descending with equal values in original input order (the
underlying `argsort` is modelled as stable: that double reversal exists
precisely so that stable kinds stay stable for descending sorts, and
numpy's introsort degenerates to stable insertion sort on the small runs
where ties meet).  A stable descending sort is insertion sort with the
reflexive relation `f b ≤ f a`. -/
def pdSortDesc {α : Type} (f : α → ℚ) (l : List α) : List α :=
  List.insertionSort (fun a b => f b ≤ f a) l

/-- Line 203: `df.sort_values(field, ascending=False).head(n)`. -/
def pdSortDescHead {α : Type} (f : α → ℚ) (n : ℕ) (l : List α) : List α :=
  (pdSortDesc f l).take n

/-- Python `int()` applied to a (rational-valued) float: truncation toward
zero (lines 126-129). -/
def pyInt (q : ℚ) : ℤ :=
  q.num.tdiv q.den

/-- `Series.idxmax` selects the first row attaining the maximum (ties keep
the earliest row); on an empty series it raises, which the script guards
with `if not filtered_videos.empty` (line 144), so the engine-level result
on an empty table is "absent" (`none`). -/
def argmaxBy {α : Type} (f : α → ℚ) : List α → Option α
  | [] => none
  | a :: l =>
    match argmaxBy f l with
    | none => some a
    | some b => if f a < f b then some b else some a

/-- The scalar rollups of lines 126-130 and the three guarded argmax rows of
lines 144-147. -/
structure Rollups where
  total_likes : ℤ
  total_dislikes : ℤ
  total_comments : ℤ
  total_views : ℤ
  avg_engagement : ℚ
  mv : Option DerivedRow
  ml : Option DerivedRow
  md : Option DerivedRow
deriving DecidableEq

/-- Lines 126-130 (`int(col.sum())`, `float(mean) if not empty else 0.0`)
and lines 144-147 (guarded `idxmax` rows). -/
def rollups (l : List DerivedRow) : Rollups :=
  { total_likes := pyInt (l.map DerivedRow.likes).sum
    total_dislikes := pyInt (l.map DerivedRow.dislikes).sum
    total_comments := pyInt (l.map DerivedRow.comments).sum
    total_views := pyInt (l.map DerivedRow.views).sum
    avg_engagement :=
      if l.isEmpty then 0 else (l.map DerivedRow.engagement_rate).sum / (l.length : ℚ)
    mv := argmaxBy DerivedRow.views l
    ml := argmaxBy DerivedRow.likes l
    md := argmaxBy DerivedRow.dislikes l }

/-- Lines 144-157: the title shown in the "Most Viewed" card.  When the
filtered table is empty the script - the caller of the rollup computation -
substitutes the argmax over the unfiltered `videos_df` (lines 148-151);
the fallback row is read before coercion, so its views are compared through
`cellToNum`. -/
def shownMostViewedTitle (filtered : List DerivedRow) (all : List RawVideo) : Option String :=
  if filtered.isEmpty then (argmaxBy (fun r => cellToNum r.views) all).map RawVideo.title
  else (argmaxBy DerivedRow.views filtered).map DerivedRow.title

/-- Lines 144-161: the title shown in the "Most Liked" card. -/
def shownMostLikedTitle (filtered : List DerivedRow) (all : List RawVideo) : Option String :=
  if filtered.isEmpty then (argmaxBy (fun r => cellToNum r.likes) all).map RawVideo.title
  else (argmaxBy DerivedRow.likes filtered).map DerivedRow.title

/-- Lines 144-165: the title shown in the "Most Disliked" card. -/
def shownMostDislikedTitle (filtered : List DerivedRow) (all : List RawVideo) : Option String :=
  if filtered.isEmpty then (argmaxBy (fun r => cellToNum r.dislikes) all).map RawVideo.title
  else (argmaxBy DerivedRow.dislikes filtered).map DerivedRow.title

/-- Line 117: `total_views / max(total_videos, 1)`. -/
def avgViewsPerVideo (c : ChannelSnapshot) : ℚ :=
  c.total_views / max c.total_videos 1

/-- Line 61: `st.sidebar.slider(..., min_value=3, max_value=50, value=10)`.
The widget only ever returns a value inside `[min_value, max_value]`;
modelled as clamping the user's choice to that interval. -/
def sliderValue (choice : ℕ) : ℕ :=
  min 50 (max 3 choice)

/-- Line 61: the slider's initial `value=10`. -/
def sliderDefault : ℕ := 10

/-- The caller-supplied parameters of one render pass: the sidebar date
range (lines 52-59, `none` when no date column is usable) and the sidebar
slider position. -/
structure Params where
  start_date : Option ℤ
  end_date : Option ℤ
  top_n_choice : ℕ

/-- The script's global dataframes and derived values.  The two source
tables (`channel_df`, `videos_df`) are what `load_tables` returned
(lines 21-31); the remaining fields are the derived tables and scalars the
render pass assigns. -/
structure DashState where
  channel_df : List ChannelSnapshot
  videos_df : List RawVideo
  filtered_videos : List DerivedRow
  df_top_n : List DerivedRow
  top_eng : List DerivedRow
  top_likes : List DerivedRow
  top_dislikes : List DerivedRow
  roll : Rollups
  kpi_avg_views : Option ℚ
  shown_mv : Option String
  shown_ml : Option String
  shown_md : Option String

/-- Lines 73-237, the metrics pipeline of one render pass.  Line 73's
`filtered_videos = videos_df.copy()` means every later column assignment
writes the copy, never `videos_df`; each pandas in-place column assignment
is therefore modelled as a functional update of the variable holding the
copy.  `top_dislikes` is only computed when the filtered table has a
positive dislike total (line 232); otherwise that ranking does not exist,
modelled as `[]`.  `kpi_avg_views` is `none` when `channel_df` is empty
(line 117's `iloc[0]` raises and line 119-120 substitutes "N/A"). -/
def runPipeline (p : Params) (s : DashState) : DashState :=
  let fv0 := s.videos_df
  let fv1 := filterByDate p.start_date p.end_date fv0
  let fv2 := coerceTable fv1
  let fv := computeEngagement fv2
  let n := sliderValue p.top_n_choice
  { s with
    filtered_videos := fv
    df_top_n := pdNlargest DerivedRow.views n fv
    top_eng := pdSortDescHead DerivedRow.engagement_rate n fv
    top_likes := pdNlargest DerivedRow.likes 10 fv
    top_dislikes :=
      if 0 < (fv.map DerivedRow.dislikes).sum then pdNlargest DerivedRow.dislikes 10 fv else []
    roll := rollups fv
    kpi_avg_views := s.channel_df.head?.map avgViewsPerVideo
    shown_mv := shownMostViewedTitle fv s.videos_df
    shown_ml := shownMostLikedTitle fv s.videos_df
    shown_md := shownMostDislikedTitle fv s.videos_df }

/-- A sample raw row carrying a (non-null) midnight timestamp of day 0. -/
def sampleDatedRow : RawVideo :=
  { title := "a", views := none, likes := none, dislikes := none, comments := none,
    date := some 0 }

/-- A sample raw table of eleven distinct videos (one dislike each, so the
dislikes ranking is produced). -/
def sampleManyVideos : List RawVideo :=
  [⟨"v0", some (Cell.num 0), some (Cell.num 0), some (Cell.num 1), some (Cell.num 0), none⟩,
   ⟨"v1", some (Cell.num 1), some (Cell.num 1), some (Cell.num 1), some (Cell.num 0), none⟩,
   ⟨"v2", some (Cell.num 2), some (Cell.num 2), some (Cell.num 1), some (Cell.num 0), none⟩,
   ⟨"v3", some (Cell.num 3), some (Cell.num 3), some (Cell.num 1), some (Cell.num 0), none⟩,
   ⟨"v4", some (Cell.num 4), some (Cell.num 4), some (Cell.num 1), some (Cell.num 0), none⟩,
   ⟨"v5", some (Cell.num 5), some (Cell.num 5), some (Cell.num 1), some (Cell.num 0), none⟩,
   ⟨"v6", some (Cell.num 6), some (Cell.num 6), some (Cell.num 1), some (Cell.num 0), none⟩,
   ⟨"v7", some (Cell.num 7), some (Cell.num 7), some (Cell.num 1), some (Cell.num 0), none⟩,
   ⟨"v8", some (Cell.num 8), some (Cell.num 8), some (Cell.num 1), some (Cell.num 0), none⟩,
   ⟨"v9", some (Cell.num 9), some (Cell.num 9), some (Cell.num 1), some (Cell.num 0), none⟩,
   ⟨"v10", some (Cell.num 10), some (Cell.num 10), some (Cell.num 1), some (Cell.num 0), none⟩]

/-- A sample pre-render state holding `sampleManyVideos` as the loaded
video table. -/
def sampleState : DashState :=
  { channel_df := []
    videos_df := sampleManyVideos
    filtered_videos := []
    df_top_n := []
    top_eng := []
    top_likes := []
    top_dislikes := []
    roll := ⟨0, 0, 0, 0, 0, none, none, none⟩
    kpi_avg_views := none
    shown_mv := none
    shown_ml := none
    shown_md := none }

/-! ### Helper lemmas -/

theorem length_pdNlargest {α : Type} (f : α → ℚ) (n : ℕ) (l : List α) :
    (pdNlargest f n l).length = min n l.length := by
  simp [pdNlargest, pdStableSortDesc, List.length_take, List.length_insertionSort]

theorem length_pdSortDescHead {α : Type} (f : α → ℚ) (n : ℕ) (l : List α) :
    (pdSortDescHead f n l).length = min n l.length := by
  simp [pdSortDescHead, pdSortDesc, List.length_take, List.length_insertionSort]

theorem length_pdNlargest_ite {α : Type} (c : Prop) [Decidable c] (f : α → ℚ)
    (n : ℕ) (l : List α) :
    (if c then pdNlargest f n l else []).length = if c then min n l.length else 0 := by
  split
  · exact length_pdNlargest f n l
  · rfl

theorem cellToNum_num {o : Option Cell} {q : ℚ} (h : o = some (Cell.num q)) :
    cellToNum o = q := by
  subst h; rfl

theorem cellToNum_default {o : Option Cell} (h : ∀ q, o ≠ some (Cell.num q)) :
    cellToNum o = 0 := by
  match o with
  | none => rfl
  | some (Cell.text _) => rfl
  | some Cell.null => rfl
  | some (Cell.num q) => exact absurd rfl (h q)

/-! ### Claim theorems -/

/-- C1: for every input row, the computed `engagement_rate` equals
`(likes + comments) / views` when `views` is non-zero and `0` when `views`
is `0`; for every row with (nonnegative count) inputs the computation is
total and the result is a well-defined rational `≥ 0` - never an undefined
or infinite value. -/
theorem claim_engagement_rate_total_nonneg (v : VideoRow) :
    (addEngagement v).engagement_rate
        = (if v.views = 0 then 0 else (v.likes + v.comments) / v.views)
      ∧ (0 ≤ v.likes → 0 ≤ v.comments → 0 ≤ v.views →
          0 ≤ (addEngagement v).engagement_rate) := by
  constructor
  · by_cases h : v.views = 0 <;>
      simp [addEngagement, engagementRate, replaceZeroNA, naDiv, fillna0, h]
  · intro hl hc hv
    by_cases h : v.views = 0
    · simp [addEngagement, engagementRate, replaceZeroNA, naDiv, fillna0, h]
    · simp only [addEngagement, engagementRate, replaceZeroNA, naDiv, fillna0, h,
        if_neg h, Option.map_some, Option.getD_some]
      exact div_nonneg (add_nonneg hl hc) hv

theorem claim_engagement_rate_total_nonneg_witness :
    (0:ℚ) ≤ (addEngagement ⟨"A", 100, 10, 0, 5, none⟩).engagement_rate :=
  (claim_engagement_rate_total_nonneg ⟨"A", 100, 10, 0, 5, none⟩).2
    (by decide) (by decide) (by decide)

/-- C2: on an empty video table the rollups are all-zero sums, mean
engagement `0`, and all three argmax rows absent, with no fault; the rollup
computation itself performs no fallback to the unfiltered table - the
fallback of lines 148-151 lives in the display step (`shown*Title`), which
substitutes the argmax over the unfiltered `videos_df` only there. -/
theorem claim_rollups_empty (all : List RawVideo) :
    rollups [] = ⟨0, 0, 0, 0, 0, none, none, none⟩
  ∧ shownMostViewedTitle [] all
      = (argmaxBy (fun r => cellToNum r.views) all).map RawVideo.title
  ∧ shownMostLikedTitle [] all
      = (argmaxBy (fun r => cellToNum r.likes) all).map RawVideo.title
  ∧ shownMostDislikedTitle [] all
      = (argmaxBy (fun r => cellToNum r.dislikes) all).map RawVideo.title :=
  ⟨rfl, rfl, rfl, rfl⟩

/-- C4: with both date bounds present and equal to the same day `D`, the
filter keeps exactly the rows whose timestamp lies in
`[D 00:00:00, D 23:59:59]` (seconds `86400 * D` through
`86400 * D + 86399`): the end bound is inclusive through the end of the
calendar day, not only midnight. -/
theorem claim_filter_single_day (D : ℤ) (l : List RawVideo) :
    filterByDate (some D) (some D) l
      = l.filter (inDateWindow (86400 * D) (86400 * D + 86399)) := by
  show l.filter (inDateWindow (dayStart D) (dayStart (D + 1) - 1)) = _
  rw [show dayStart (D + 1) - 1 = 86400 * D + 86399 by simp only [dayStart]; ring]
  rfl

/-- C6: the derived KPI `avg_views_per_video` equals
`total_views / max(total_videos, 1)`; the denominator is never zero, and
when `total_videos = 0` the KPI equals `total_views`. -/
theorem claim_channel_avg_views (c : ChannelSnapshot) :
    avgViewsPerVideo c = c.total_views / max c.total_videos 1
  ∧ max c.total_videos 1 ≠ 0
  ∧ (c.total_videos = 0 → avgViewsPerVideo c = c.total_views) := by
  refine ⟨rfl, ?_, ?_⟩
  · exact (lt_of_lt_of_le one_pos (le_max_right _ _)).ne'
  · intro h
    rw [avgViewsPerVideo, h]
    norm_num

theorem claim_channel_avg_views_witness :
    avgViewsPerVideo ⟨0, 100, 0⟩ = (100:ℚ) :=
  (claim_channel_avg_views ⟨0, 100, 0⟩).2.2 rfl

/-- C7: numeric coercion is applied to every row of the table, and for each
of the four numeric fields of each row: a numeric cell keeps its value, and
a missing column, a non-numeric cell or a null cell all coerce to `0` - so
every field of every coerced row is a defined rational. -/
theorem claim_coerce_defaults (l : List RawVideo) (r : RawVideo) :
    coerceTable l = l.map coerceRow
  ∧ (∀ q, r.views = some (Cell.num q) → (coerceRow r).views = q)
  ∧ ((∀ q, r.views ≠ some (Cell.num q)) → (coerceRow r).views = 0)
  ∧ (∀ q, r.likes = some (Cell.num q) → (coerceRow r).likes = q)
  ∧ ((∀ q, r.likes ≠ some (Cell.num q)) → (coerceRow r).likes = 0)
  ∧ (∀ q, r.dislikes = some (Cell.num q) → (coerceRow r).dislikes = q)
  ∧ ((∀ q, r.dislikes ≠ some (Cell.num q)) → (coerceRow r).dislikes = 0)
  ∧ (∀ q, r.comments = some (Cell.num q) → (coerceRow r).comments = q)
  ∧ ((∀ q, r.comments ≠ some (Cell.num q)) → (coerceRow r).comments = 0) :=
  ⟨rfl,
   fun _ h => cellToNum_num h, fun h => cellToNum_default h,
   fun _ h => cellToNum_num h, fun h => cellToNum_default h,
   fun _ h => cellToNum_num h, fun h => cellToNum_default h,
   fun _ h => cellToNum_num h, fun h => cellToNum_default h⟩

theorem claim_coerce_defaults_witness :
    (coerceRow ⟨"t", some (Cell.num 7), none, some (Cell.text "x"), some Cell.null, none⟩).views
        = 7
  ∧ (coerceRow ⟨"t", some (Cell.num 7), none, some (Cell.text "x"), some Cell.null, none⟩).likes
        = 0 :=
  ⟨(claim_coerce_defaults []
      ⟨"t", some (Cell.num 7), none, some (Cell.text "x"), some Cell.null, none⟩).2.1 7 rfl,
   (claim_coerce_defaults []
      ⟨"t", some (Cell.num 7), none, some (Cell.text "x"), some Cell.null, none⟩).2.2.2.2.1
      (fun _ h => nomatch h)⟩

/-- C8: one run of the metrics pipeline leaves both source tables
(`channel_df` and `videos_df`) unchanged: line 73 copies `videos_df` before
any column is assigned, so every derived table and scalar is a new value
and no input row is mutated. -/
theorem claim_pipeline_preserves_sources (p : Params) (s : DashState) :
    (runPipeline p s).videos_df = s.videos_df
  ∧ (runPipeline p s).channel_df = s.channel_df :=
  ⟨rfl, rfl⟩

/-- C9: when both date bounds are present, every row whose timestamp in the
chosen date column is null is excluded from the filtered result - a NaT
compares false against both bounds. -/
theorem claim_null_dates_excluded (sd ed : ℤ) (l : List RawVideo) (r : RawVideo)
    (hr : r ∈ filterByDate (some sd) (some ed) l) : r.date ≠ none := by
  intro hnone
  have hdw := (List.mem_filter.mp hr).2
  unfold inDateWindow at hdw
  rw [hnone] at hdw
  exact Bool.noConfusion hdw

theorem claim_null_dates_excluded_witness :
    sampleDatedRow ∈ filterByDate (some 0) (some 0) [sampleDatedRow]
  ∧ sampleDatedRow.date ≠ none :=
  ⟨by decide, claim_null_dates_excluded 0 0 [sampleDatedRow] sampleDatedRow (by decide)⟩

/-- C10: the count handed to each of the rankings is always an integer in
`[3, 50]`: the sidebar slider (min 3, max 50, default 10) supplies the
count of the views and engagement rankings, and the likes and dislikes
rankings receive the constant 10, which also lies in `[3, 50]`. -/
theorem claim_topn_always_in_bounds (c : ℕ) (p : Params) (s : DashState) :
    (3 ≤ sliderValue c ∧ sliderValue c ≤ 50 ∧ sliderValue sliderDefault = 10)
  ∧ ((runPipeline p s).df_top_n
        = pdNlargest DerivedRow.views (sliderValue p.top_n_choice)
            (runPipeline p s).filtered_videos
     ∧ (runPipeline p s).top_eng
        = pdSortDescHead DerivedRow.engagement_rate (sliderValue p.top_n_choice)
            (runPipeline p s).filtered_videos
     ∧ (runPipeline p s).top_likes
        = pdNlargest DerivedRow.likes 10 (runPipeline p s).filtered_videos
     ∧ (runPipeline p s).top_dislikes
        = (if 0 < ((runPipeline p s).filtered_videos.map DerivedRow.dislikes).sum
            then pdNlargest DerivedRow.dislikes 10 (runPipeline p s).filtered_videos
            else [])
     ∧ (3:ℕ) ≤ 10 ∧ (10:ℕ) ≤ 50) := by
  refine ⟨⟨le_min (by norm_num) (le_max_left _ _), min_le_left _ _, rfl⟩,
    rfl, rfl, rfl, rfl, by norm_num, by norm_num⟩

/-- C5 counterexample: eleven videos and a slider value of 3.  The views
ranking returns 3 rows, but the likes ranking (line 223,
`nlargest(10, "likes")`) returns 10 rows: it does not use the
caller-supplied count. -/
theorem claim_four_rankings_counterexample :
    sliderValue 3 = 3
  ∧ (runPipeline ⟨none, none, 3⟩ sampleState).df_top_n.length = 3
  ∧ (runPipeline ⟨none, none, 3⟩ sampleState).top_likes.length = 10 := by
  refine ⟨rfl, ?_, ?_⟩ <;> decide

/-- C5 (amended): the program produces four distinct independent rankings -
by views, engagement rate, likes and dislikes - but only the views and
engagement rankings use the caller-supplied count; the likes and dislikes
rankings use the constant 10 (lines 223 and 234), and the dislikes ranking
is only produced when the filtered table has a positive dislikes total. -/
theorem claim_four_rankings_corrected (p : Params) (s : DashState) :
    (runPipeline p s).df_top_n.length
        = min (sliderValue p.top_n_choice) (runPipeline p s).filtered_videos.length
  ∧ (runPipeline p s).top_eng.length
        = min (sliderValue p.top_n_choice) (runPipeline p s).filtered_videos.length
  ∧ (runPipeline p s).top_likes.length
        = min 10 (runPipeline p s).filtered_videos.length
  ∧ (runPipeline p s).top_dislikes.length
        = (if 0 < ((runPipeline p s).filtered_videos.map DerivedRow.dislikes).sum
            then min 10 (runPipeline p s).filtered_videos.length else 0) := by
  refine ⟨length_pdNlargest _ _ _, length_pdSortDescHead _ _ _,
    length_pdNlargest _ _ _, length_pdNlargest_ite _ _ _ _⟩

end YTDash
